import Mathlib

/-!
Formal model of the dual-arm monitoring and safe joint-move subsystem of the
lumo-dashboard backend (files `lumo_dashboard/api/arm.py` and
`lumo_dashboard/drivers/arm_driver.py`).  Python dictionaries are modelled as
insertion-ordered association lists, Python floats as exact rationals, and the
servo bus as the list of calls a computation emits.
-/

namespace LumoDashboard

/-- The six joint names, `JOINT_NAMES` in `arm_driver.py` (also the keys of
`bus.motors` built in `SingleArmMonitor._connect`). -/
def JOINT_NAMES : List String :=
  ["shoulder_pan", "shoulder_lift", "elbow_flex", "wrist_flex", "wrist_roll", "gripper"]

/-- Python dict assignment `d[k] = v`: replace the binding if the key is
present (keeping insertion order), otherwise append the new binding. -/
def dinsert (k : String) (v : α) : List (String × α) → List (String × α)
  | [] => [(k, v)]
  | p :: m => if p.1 = k then (k, v) :: m else p :: dinsert k v m

/-- One call observed on the serial bus (the methods of the
`FeetechBusProtocol` duck type in `arm_driver.py`). -/
inductive BusCall where
  | connect (handshake : Bool)
  | disconnect (disableTorque : Bool)
  | syncRead (register : String)
  | syncWrite (register : String) (values : List (String × ℚ))
  | enableTorque
  deriving DecidableEq, Repr

/-- The shape of a bus call with arguments other than the register erased,
for stating call-order properties. -/
inductive BusCallKind where
  | connect
  | disconnect
  | syncRead (register : String)
  | syncWrite (register : String)
  | enableTorque
  deriving DecidableEq, Repr

/-- The kind of a bus call. -/
def busCallKind : BusCall → BusCallKind
  | BusCall.connect _ => BusCallKind.connect
  | BusCall.disconnect _ => BusCallKind.disconnect
  | BusCall.syncRead r => BusCallKind.syncRead r
  | BusCall.syncWrite r _ => BusCallKind.syncWrite r
  | BusCall.enableTorque => BusCallKind.enableTorque

/-- `_speed_to_goal_velocity` from `api/arm.py`: map a UI speed percent to the
STS3215 `Goal_Velocity` raw value.  `speed_pct >= 100` returns 0 (no limit);
otherwise `max(1, round(50 + (99 - speed_pct) / 99 * 1950))`.  The exact value
always has odd denominator, so Python's banker's rounding agrees with `round`. -/
def speed_to_goal_velocity (speed_pct : ℤ) : ℤ :=
  if speed_pct ≥ 100 then 0
  else max 1 (round ((50 : ℚ) + ((99 : ℚ) - (speed_pct : ℚ)) / 99 * 1950))

/-- One per-joint record of a calibration file (`MotorCalibration` fields). -/
structure CalEntry where
  id : ℤ
  drive_mode : ℤ
  homing_offset : ℤ
  range_min : ℤ
  range_max : ℤ
  deriving DecidableEq, Repr

/-- The half range in degrees derived from a calibration entry:
`(range_max - range_min) / 2 * 360 / 4095` (`MAX_RES = 4095`). -/
def halfRange (e : CalEntry) : ℚ :=
  ((e.range_max : ℚ) - (e.range_min : ℚ)) / 2 * 360 / 4095

/-- Python `round(x, 1)` on the exact value: round to one decimal place.
All values this file applies it to have odd denominator, where round-half-even
and `round` agree. -/
def roundTo1 (x : ℚ) : ℚ := ((round (10 * x) : ℤ) : ℚ) / 10

/-- A calibration file's content: `None` when the file is absent, otherwise
the joint-keyed records in file order. -/
def Calibration := Option (List (String × CalEntry))

/-- The `shoulder_pan` record of the follower calibration file
(`range_min = 943`, `range_max = 3337`), as used in the repository's tests. -/
def shoulder_pan_cal : CalEntry :=
  { id := 1, drive_mode := 0, homing_offset := -2027, range_min := 943,
    range_max := 3337 }

/-- The `wrist_roll` record of the follower calibration file
(`range_min = 0`, `range_max = 4095`). -/
def wrist_roll_cal : CalEntry :=
  { id := 5, drive_mode := 0, homing_offset := -1883, range_min := 0,
    range_max := 4095 }

/-- `_get_joint_limits` from `api/arm.py`: derive `{joint: (min, max)}` from
the follower calibration file; `{}` when the file is absent; `(0, 100)` for
the gripper and the unrounded `(-half, half)` degrees otherwise. -/
def get_joint_limits (cal : Calibration) : List (String × (ℚ × ℚ)) :=
  match cal with
  | none => []
  | some entries =>
    entries.foldl
      (fun limits p =>
        dinsert p.1
          (if p.1 = "gripper" then ((0 : ℚ), (100 : ℚ))
           else (-(halfRange p.2), halfRange p.2))
          limits)
      []

/-- One joint's entry in the `/arm/calibration` response. -/
structure CalLimit where
  min : ℚ
  max : ℚ
  unit : String
  deriving DecidableEq, Repr

/-- One role of the `arm_calibration` endpoint in `api/arm.py`: `{}` when the
file is absent; gripper `(0, 100, "%")`; otherwise the degree limits rounded
to one decimal place. -/
def arm_calibration_role (cal : Calibration) : List (String × CalLimit) :=
  match cal with
  | none => []
  | some entries =>
    entries.foldl
      (fun joints p =>
        dinsert p.1
          (if p.1 = "gripper" then { min := 0, max := 100, unit := "%" }
           else { min := roundTo1 (-(halfRange p.2)),
                  max := roundTo1 (halfRange p.2), unit := "deg" })
          joints)
      []

/-- The body of `JointMoveRequest` in `api/arm.py` (defaults `speed = 30`,
`acceleration = 10`). -/
structure JointMoveRequest where
  joint : String
  angle : ℚ
  speed : ℤ := 30
  acceleration : ℤ := 10
  deriving DecidableEq, Repr

/-- The success payload `follower_joint_move` returns (its `ok: True` dict). -/
structure MoveResult where
  joint : String
  angle : ℚ
  clamped : Bool
  goal_velocity : ℤ
  acceleration : ℤ
  deriving DecidableEq, Repr

/-- The two failure modes of `follower_joint_move`: the HTTP 503 offline
rejection, and any exception in the bus section surfaced as HTTP 500. -/
inductive MoveError where
  | offline
  | actuation (detail : String)
  deriving DecidableEq, Repr

/-- The part of the follower monitor `follower_joint_move` consults before
touching the bus: `arm.follower._connected` and whether `arm.follower._arm`
is present. -/
structure FollowerState where
  connected : Bool
  armPresent : Bool
  deriving DecidableEq, Repr

/-- The clamping step of `follower_joint_move`: `angle = max(lo, min(hi,
angle))` when the joint has an entry in the derived limits, the request
unchanged otherwise. -/
def clampToLimits (limits : List (String × (ℚ × ℚ))) (joint : String) (angle : ℚ) : ℚ :=
  match List.lookup joint limits with
  | some (lo, hi) => max lo (min hi angle)
  | none => angle

/-- The goal-map construction loop of `follower_joint_move`: for each joint
name take its just-read position, failing (`RuntimeError`) when one is
missing. -/
def buildGoal (readPos : String → Option ℚ) (names : List String) :
    Option (List (String × ℚ)) :=
  names.foldlM (fun goal name => (readPos name).map (fun v => dinsert name v goal)) []

/-- `follower_joint_move` from `api/arm.py`.  `readPos` is what
`bus.sync_read("Present_Position")` returns for each joint name.  The second
component is the sequence of bus calls the request issued. -/
def follower_joint_move (st : FollowerState) (cal : Calibration)
    (readPos : String → Option ℚ) (req : JointMoveRequest) :
    Except MoveError MoveResult × List BusCall :=
  if st.connected = false ∨ st.armPresent = false then
    (Except.error MoveError.offline, [])
  else
    let limits := get_joint_limits cal
    let angle := clampToLimits limits req.joint req.angle
    match buildGoal readPos JOINT_NAMES with
    | none =>
      (Except.error (MoveError.actuation "Missing current position"),
       [BusCall.syncRead "Present_Position"])
    | some base =>
      let goal := dinsert req.joint angle base
      let goal_vel := speed_to_goal_velocity req.speed
      let accel := max 0 (min 254 req.acceleration)
      let vel_dict := JOINT_NAMES.map (fun n => (n, (goal_vel : ℚ)))
      let accel_dict := JOINT_NAMES.map (fun n => (n, (accel : ℚ)))
      (Except.ok { joint := req.joint, angle := angle,
                   clamped := decide (angle ≠ req.angle),
                   goal_velocity := goal_vel, acceleration := accel },
       [BusCall.syncRead "Present_Position",
        BusCall.syncWrite "Goal_Velocity" vel_dict,
        BusCall.syncWrite "Acceleration" accel_dict,
        BusCall.syncWrite "Goal_Position" goal,
        BusCall.enableTorque])

/-- The dict results of `ArmDriver.move` / `home` / `stop` in
`arm_driver.py`. -/
structure OpResult where
  ok : Bool
  error : Option String := none
  message : Option String := none
  deriving DecidableEq, Repr

/-- `ArmDriver.move`: rejects the bulk move without touching the bus. -/
def ArmDriver.move (joints : List (String × ℚ)) (speed : ℤ) :
    OpResult × List BusCall :=
  ({ ok := false, error := some "Move not implemented in monitor mode" }, [])

/-- `ArmDriver.home`: rejects homing without touching the bus. -/
def ArmDriver.home : OpResult × List BusCall :=
  ({ ok := false, error := some "Home not implemented in monitor mode" }, [])

/-- `ArmDriver.stop`: acknowledges without touching the bus. -/
def ArmDriver.stop : OpResult × List BusCall :=
  ({ ok := true, message := some "Stop acknowledged" }, [])

/-- A result that clearly reports "not implemented": a failure whose error
field is set. -/
def notImplementedReport (r : OpResult) : Prop := r.ok = false ∧ r.error ≠ none

/-- One joint's snapshot entry, `JointSample` in `arm_driver.py`: position in
engineering units, load always absent. -/
structure JointSample where
  pos : Option ℚ
  load : Option ℚ
  deriving DecidableEq, Repr

/-- `_empty_joints()`: the all-`None` snapshot over the six joints. -/
def empty_joints : List (String × JointSample) :=
  JOINT_NAMES.map (fun n => (n, { pos := none, load := none }))

/-- How far the loop thread has advanced through the statements of the
read-failure branch of `_loop`.  The branch runs `self._connected = False`
(NOT under the lock), then `self._disconnect()` (bus I/O), then — only then —
takes the lock and resets `self._joints`; a concurrent `get_status` can be
served between any two of those statements. -/
inductive Phase where
  | idle
  | readFailedPending
  | flagged
  | disconnected
  deriving DecidableEq, Repr

/-- The fields of `SingleArmMonitor` the loop, pause, resume, stop and
`get_status` read or write — `_connected`, `_arm` (presence), `_running`,
`_paused` and the `_joints` snapshot — together with the loop thread's
position inside the read-failure handler. -/
structure MonitorState where
  connected : Bool
  armPresent : Bool
  running : Bool
  paused : Bool
  joints : List (String × JointSample)
  phase : Phase
  deriving DecidableEq, Repr

/-- The state `SingleArmMonitor.__init__` builds. -/
def MonitorState.initial : MonitorState :=
  { connected := false, armPresent := false, running := false, paused := false,
    joints := empty_joints, phase := Phase.idle }

/-- The bus calls `SingleArmMonitor._disconnect` issues: one
`disconnect(disable_torque=False)` when a bus handle is held, none
otherwise. -/
def disconnectCalls (s : MonitorState) : List BusCall :=
  if s.armPresent = true then [BusCall.disconnect false] else []

/-- The snapshot `_read_joints` builds from a successful
`sync_read("Present_Position")`: each joint's raw value rounded to one
decimal, `None` entries kept as unknown, load always absent. -/
def read_joints (raw : String → Option ℚ) : List (String × JointSample) :=
  JOINT_NAMES.map (fun n => (n, { pos := (raw n).map roundTo1, load := none }))

/-- The transitions of `SingleArmMonitor`, at the granularity `get_status`
can observe.  The read-failure branch of `_loop` is split statement by
statement — the failed read, the unlocked `self._connected = False`, the
`self._disconnect()` bus I/O, and the locked snapshot reset — because only
the last of those holds the lock `get_status` takes.  `readOk` publishes its
snapshot inside one locked block and `pause` writes the connected flag and
snapshot inside one locked block, so each is a single step; `start`,
`resume` and `stop` never write the flag-and-snapshot pair.  The loop-thread
steps require `phase = idle` since that thread is sequential; `pause`,
`resume`, `stop` and `start` run on caller threads and may interleave with
the handler. -/
inductive Step : MonitorState → List BusCall → MonitorState → Prop where
  | start (s : MonitorState) (h : s.running = false) :
      Step s [] { s with running := true, paused := false }
  | startNoop (s : MonitorState) (h : s.running = true) :
      Step s [] s
  | tickPaused (s : MonitorState) (hr : s.running = true) (hp : s.paused = true)
      (hph : s.phase = Phase.idle) :
      Step s [] s
  | connectOk (s : MonitorState) (hr : s.running = true) (hp : s.paused = false)
      (hc : s.connected = false) (hph : s.phase = Phase.idle) :
      Step s [BusCall.connect true] { s with connected := true, armPresent := true }
  | connectFail (s : MonitorState) (hr : s.running = true) (hp : s.paused = false)
      (hc : s.connected = false) (hph : s.phase = Phase.idle) :
      Step s [BusCall.connect true] { s with connected := false, armPresent := false }
  | readOk (s : MonitorState) (raw : String → Option ℚ) (hr : s.running = true)
      (hp : s.paused = false) (hc : s.connected = true) (ha : s.armPresent = true)
      (hph : s.phase = Phase.idle) :
      Step s [BusCall.syncRead "Present_Position"] { s with joints := read_joints raw }
  | readFailNone (s : MonitorState) (hr : s.running = true) (hp : s.paused = false)
      (hc : s.connected = true) (hph : s.phase = Phase.idle) :
      Step s
        (if s.armPresent = true then [BusCall.syncRead "Present_Position"] else [])
        { s with phase := Phase.readFailedPending }
  | readFailFlag (s : MonitorState) (hph : s.phase = Phase.readFailedPending) :
      Step s [] { s with connected := false, phase := Phase.flagged }
  | readFailDisconnect (s : MonitorState) (hph : s.phase = Phase.flagged) :
      Step s (disconnectCalls s)
        { s with armPresent := false, phase := Phase.disconnected }
  | readFailReset (s : MonitorState) (hph : s.phase = Phase.disconnected) :
      Step s [] { s with joints := empty_joints, phase := Phase.idle }
  | pause (s : MonitorState) :
      Step s (disconnectCalls s)
        { s with paused := true, armPresent := false, connected := false,
                 joints := empty_joints }
  | resume (s : MonitorState) :
      Step s [] { s with paused := false }
  | stop (s : MonitorState) :
      Step s (disconnectCalls s)
        { s with running := false, paused := false, armPresent := false }

/-- The monitor states reachable from the freshly constructed monitor. -/
inductive Reachable : MonitorState → Prop where
  | init : Reachable MonitorState.initial
  | step (s t : MonitorState) (calls : List BusCall) (hs : Reachable s)
      (hstep : Step s calls t) : Reachable t

/-- A freshly started monitor. -/
def cexStarted : MonitorState :=
  { MonitorState.initial with running := true, paused := false }

/-- A started monitor whose connect attempt succeeded. -/
def cexOpened : MonitorState :=
  { cexStarted with connected := true, armPresent := true }

/-- A connected monitor whose last read returned 10 for every joint
(snapshot entries all present). -/
def cexConnected : MonitorState :=
  { connected := true, armPresent := true, running := true, paused := false,
    joints := read_joints (fun _ => some 10), phase := Phase.idle }

/-- The monitor midway through the read-failure handler: the unlocked
`self._connected = False` has executed, the locked snapshot reset has not. -/
def readFailMidState : MonitorState :=
  { cexConnected with connected := false, phase := Phase.flagged }

/-- The status dict `SingleArmMonitor.get_status` returns. -/
structure SingleArmStatus where
  connected : Bool
  port : String
  joints : List (String × JointSample)
  deriving DecidableEq, Repr

/-- `SingleArmMonitor.get_status`: snapshot of the connected flag, port and
joints map. -/
def get_status (s : MonitorState) (port : String) : SingleArmStatus :=
  { connected := s.connected, port := port, joints := s.joints }

section DictLemmas

variable {α β : Type}

theorem lookup_dinsert_self (k : String) (v : α) (m : List (String × α)) :
    List.lookup k (dinsert k v m) = some v := by
  induction m with
  | nil => simp [dinsert]
  | cons p m ih =>
    by_cases h : p.1 = k
    · simp [dinsert, h]
    · have hkp : (k == p.1) = false := beq_eq_false_iff_ne.mpr (Ne.symm h)
      simp [dinsert, h, List.lookup, ih, hkp]

theorem lookup_dinsert_ne (k j : String) (v : α) (m : List (String × α))
    (h : j ≠ k) : List.lookup j (dinsert k v m) = List.lookup j m := by
  have hjk : (j == k) = false := beq_eq_false_iff_ne.mpr h
  induction m with
  | nil => simp [dinsert, List.lookup, hjk]
  | cons p m ih =>
    by_cases hp : p.1 = k
    · subst hp
      simp [dinsert, List.lookup, hjk]
    · simp [dinsert, hp, List.lookup, ih]

theorem dinsert_append (k : String) (v : α) (m : List (String × α))
    (h : ∀ p ∈ m, p.1 ≠ k) : dinsert k v m = m ++ [(k, v)] := by
  induction m with
  | nil => rfl
  | cons p m ih =>
    have hp : p.1 ≠ k := h p (by simp)
    simp only [dinsert, hp, if_false, List.cons_append]
    rw [ih (fun q hq => h q (by simp [hq]))]

theorem foldl_dinsert_eq_append (vals : String → α) :
    ∀ (names : List String) (acc : List (String × α)), names.Nodup →
      (∀ n ∈ names, ∀ p ∈ acc, p.1 ≠ n) →
      names.foldl (fun goal name => dinsert name (vals name) goal) acc
        = acc ++ names.map (fun n => (n, vals n))
  | [], acc, _, _ => by simp
  | n :: ns, acc, hnd, hdisj => by
    have hstep : dinsert n (vals n) acc = acc ++ [(n, vals n)] :=
      dinsert_append n (vals n) acc (fun p hp => hdisj n (by simp) p hp)
    have hnd2 : ns.Nodup := (List.nodup_cons.mp hnd).2
    have hnotin : n ∉ ns := (List.nodup_cons.mp hnd).1
    have hdisj2 : ∀ m ∈ ns, ∀ p ∈ acc ++ [(n, vals n)], p.1 ≠ m := by
      intro m hm p hp
      rcases List.mem_append.mp hp with hpa | hpn
      · exact hdisj m (by simp [hm]) p hpa
      · simp only [List.mem_singleton] at hpn
        subst hpn
        show n ≠ m
        exact fun hc => hnotin (hc ▸ hm)
    calc (n :: ns).foldl (fun goal name => dinsert name (vals name) goal) acc
        = ns.foldl (fun goal name => dinsert name (vals name) goal)
            (acc ++ [(n, vals n)]) := by rw [List.foldl_cons, hstep]
      _ = (acc ++ [(n, vals n)]) ++ ns.map (fun m => (m, vals m)) :=
            foldl_dinsert_eq_append vals ns (acc ++ [(n, vals n)]) hnd2 hdisj2
      _ = acc ++ (n :: ns).map (fun m => (m, vals m)) := by simp

theorem buildGoal_foldlM (readPos : String → Option ℚ) (vals : String → ℚ) :
    ∀ (names : List String) (acc : List (String × ℚ)),
      (∀ n ∈ names, readPos n = some (vals n)) →
      names.foldlM (fun goal name => (readPos name).map (fun v => dinsert name v goal)) acc
        = some (names.foldl (fun goal name => dinsert name (vals name) goal) acc)
  | [], acc, _ => rfl
  | n :: ns, acc, h => by
    have hn : readPos n = some (vals n) := h n (by simp)
    rw [List.foldlM_cons, hn]
    simp only [Option.map_some, Option.bind_eq_bind, Option.some_bind]
    exact buildGoal_foldlM readPos vals ns (dinsert n (vals n) acc)
      (fun m hm => h m (by simp [hm]))

theorem buildGoal_eq (readPos : String → Option ℚ) (vals : String → ℚ)
    (h : ∀ n ∈ JOINT_NAMES, readPos n = some (vals n)) :
    buildGoal readPos JOINT_NAMES
      = some (JOINT_NAMES.map (fun n => (n, vals n))) := by
  rw [buildGoal, buildGoal_foldlM readPos vals JOINT_NAMES [] h]
  rw [foldl_dinsert_eq_append vals JOINT_NAMES [] (by decide) (by simp)]
  simp

theorem dinsert_map_mem (vals : String → ℚ) (j : String) (a : ℚ) :
    ∀ (names : List String), names.Nodup → j ∈ names →
      dinsert j a (names.map (fun n => (n, vals n)))
        = names.map (fun n => (n, if n = j then a else vals n))
  | [], _, hj => by simp at hj
  | n :: ns, hnd, hj => by
    have hnd2 : ns.Nodup := (List.nodup_cons.mp hnd).2
    have hnotin : n ∉ ns := (List.nodup_cons.mp hnd).1
    by_cases hn : n = j
    · subst hn
      have htail : List.map (fun m => (m, if m = n then a else vals m)) ns
          = List.map (fun m => (m, vals m)) ns := by
        apply List.map_congr_left
        intro m hm
        have hmn : m ≠ n := fun hc => hnotin (hc ▸ hm)
        simp [hmn]
      simp [dinsert, htail]
    · have hj2 : j ∈ ns := by
        rcases List.mem_cons.mp hj with hc | hc
        · exact absurd hc.symm hn
        · exact hc
      have hrec := dinsert_map_mem vals j a ns hnd2 hj2
      simp [dinsert, hn, hrec]

theorem lookup_foldl_dinsert_not_mem (f : String × α → β) :
    ∀ (entries : List (String × α)) (acc : List (String × β)) (name : String),
      name ∉ entries.map Prod.fst →
      List.lookup name (entries.foldl (fun m p => dinsert p.1 (f p) m) acc)
        = List.lookup name acc
  | [], acc, name, _ => rfl
  | p :: rest, acc, name, h => by
    have h1 : name ≠ p.1 := by
      intro hc
      exact h (by simp [hc])
    have h2 : name ∉ rest.map Prod.fst := by
      intro hc
      exact h (by simp [hc])
    rw [List.foldl_cons,
      lookup_foldl_dinsert_not_mem f rest (dinsert p.1 (f p) acc) name h2,
      lookup_dinsert_ne p.1 name (f p) acc h1]

theorem lookup_foldl_dinsert (f : String × α → β) :
    ∀ (entries : List (String × α)) (acc : List (String × β)) (name : String)
      (e : α), (entries.map Prod.fst).Nodup → (name, e) ∈ entries →
      List.lookup name (entries.foldl (fun m p => dinsert p.1 (f p) m) acc)
        = some (f (name, e))
  | [], _, _, _, _, hmem => by simp at hmem
  | p :: rest, acc, name, e, hnd, hmem => by
    have hnd2 : (rest.map Prod.fst).Nodup := (List.nodup_cons.mp (by simpa using hnd)).2
    rcases List.mem_cons.mp hmem with hc | hc
    · subst hc
      have hni : name ∉ rest.map Prod.fst :=
        (List.nodup_cons.mp (by simpa using hnd)).1
      rw [List.foldl_cons,
        lookup_foldl_dinsert_not_mem f rest (dinsert name (f (name, e)) acc) name hni,
        lookup_dinsert_self]
    · rw [List.foldl_cons]
      exact lookup_foldl_dinsert f rest (dinsert p.1 (f p) acc) name e hnd2 hc

end DictLemmas

theorem readPos_eq_some_getD (readPos : String → Option ℚ)
    (hread : ∀ n ∈ JOINT_NAMES, (readPos n).isSome = true) :
    ∀ n ∈ JOINT_NAMES, readPos n = some ((readPos n).getD 0) := by
  intro n hn
  rcases Option.isSome_iff_exists.mp (hread n hn) with ⟨v, hv⟩
  rw [hv]
  rfl

theorem follower_joint_move_accepted (st : FollowerState) (cal : Calibration)
    (readPos : String → Option ℚ) (vals : String → ℚ) (req : JointMoveRequest)
    (hc : st.connected = true) (ha : st.armPresent = true)
    (hvals : ∀ n ∈ JOINT_NAMES, readPos n = some (vals n)) :
    follower_joint_move st cal readPos req =
      (Except.ok
        { joint := req.joint,
          angle := clampToLimits (get_joint_limits cal) req.joint req.angle,
          clamped := decide
            (clampToLimits (get_joint_limits cal) req.joint req.angle ≠ req.angle),
          goal_velocity := speed_to_goal_velocity req.speed,
          acceleration := max 0 (min 254 req.acceleration) },
       [BusCall.syncRead "Present_Position",
        BusCall.syncWrite "Goal_Velocity"
          (JOINT_NAMES.map (fun n => (n, (speed_to_goal_velocity req.speed : ℚ)))),
        BusCall.syncWrite "Acceleration"
          (JOINT_NAMES.map (fun n => (n, ((max 0 (min 254 req.acceleration) : ℤ) : ℚ)))),
        BusCall.syncWrite "Goal_Position"
          (dinsert req.joint
            (clampToLimits (get_joint_limits cal) req.joint req.angle)
            (JOINT_NAMES.map (fun n => (n, vals n)))),
        BusCall.enableTorque]) := by
  unfold follower_joint_move
  rw [if_neg (by simp [hc, ha]), buildGoal_eq readPos vals hvals]

/-- Claim C2: a single-joint move request arriving while the follower monitor
is not connected (connected flag false or bus handle absent) yields the
offline error (HTTP 503) and performs zero bus calls. -/
theorem C2_offline_guard (st : FollowerState) (cal : Calibration)
    (readPos : String → Option ℚ) (req : JointMoveRequest)
    (h : st.connected = false ∨ st.armPresent = false) :
    follower_joint_move st cal readPos req = (Except.error MoveError.offline, []) := by
  unfold follower_joint_move
  rw [if_pos h]

theorem C2_offline_guard_witness :
    follower_joint_move { connected := false, armPresent := false } none
        (fun _ => some 0) { joint := "shoulder_pan", angle := 10 }
      = (Except.error MoveError.offline, []) :=
  C2_offline_guard { connected := false, armPresent := false } none
    (fun _ => some 0) { joint := "shoulder_pan", angle := 10 } (Or.inl rfl)

/-- Claim C6: the speed-to-velocity map returns 0 for every speed percent at
or above 100 and `max(1, round(50 + (99 - speed_pct)/99 * 1950))` below 100;
speed 100 yields 0 and speed 30 yields 1409. -/
theorem C6_speed_to_velocity_map (s : ℤ) :
    (100 ≤ s → speed_to_goal_velocity s = 0) ∧
    (s < 100 → speed_to_goal_velocity s
        = max 1 (round ((50 : ℚ) + ((99 : ℚ) - (s : ℚ)) / 99 * 1950))) ∧
    speed_to_goal_velocity 100 = 0 ∧ speed_to_goal_velocity 30 = 1409 := by
  refine ⟨fun h => ?_, fun h => ?_,
    by norm_num [speed_to_goal_velocity],
    by norm_num [speed_to_goal_velocity, round_eq]⟩
  · unfold speed_to_goal_velocity
    rw [if_pos h]
  · unfold speed_to_goal_velocity
    rw [if_neg (by omega)]

theorem C6_speed_to_velocity_map_witness :
    speed_to_goal_velocity 100 = 0 ∧ speed_to_goal_velocity 30 = 1409 :=
  ⟨(C6_speed_to_velocity_map 100).1 (by norm_num),
   (C6_speed_to_velocity_map 30).2.2.2⟩

/-- Claim C7 (code bug): the code's docstring says lower speed percent must
command slower motion, but the formula computes a `Goal_Velocity` raw value
that is higher (faster) for lower percents: speed 0 yields 2000 steps per
second and speed 99 yields 50, so the velocity at 0 is not at most the
velocity at 99. -/
theorem C7_lower_percent_commands_faster :
    speed_to_goal_velocity 0 = 2000 ∧ speed_to_goal_velocity 99 = 50 ∧
    ¬ speed_to_goal_velocity 0 ≤ speed_to_goal_velocity 99 := by
  have h0 : speed_to_goal_velocity 0 = 2000 := by
    norm_num [speed_to_goal_velocity, round_eq]
  have h99 : speed_to_goal_velocity 99 = 50 := by
    norm_num [speed_to_goal_velocity, round_eq]
  refine ⟨h0, h99, ?_⟩
  rw [h0, h99]
  norm_num

/-- Claim C9 (counterexample): `ArmDriver.stop` does not report a
"not implemented" result — it acknowledges with `ok = True` and no error
field. -/
theorem C9_stop_counterexample :
    ¬ notImplementedReport ArmDriver.stop.1 ∧
    ArmDriver.stop.1.ok = true ∧ ArmDriver.stop.1.error = none ∧
    ArmDriver.stop.1.message = some "Stop acknowledged" ∧
    ArmDriver.stop.2 = [] := by
  refine ⟨?_, rfl, rfl, rfl, rfl⟩
  intro h
  simp [notImplementedReport, ArmDriver.stop] at h

/-- Claim C9 (amended): the bulk-move and home operations report a clear
"not implemented" failure, the stop operation acknowledges with success, and
all three perform zero bus calls. -/
theorem C9_unsupported_ops_no_bus (joints : List (String × ℚ)) (speed : ℤ) :
    notImplementedReport (ArmDriver.move joints speed).1 ∧
    (ArmDriver.move joints speed).1.error
      = some "Move not implemented in monitor mode" ∧
    (ArmDriver.move joints speed).2 = [] ∧
    notImplementedReport ArmDriver.home.1 ∧
    ArmDriver.home.1.error = some "Home not implemented in monitor mode" ∧
    ArmDriver.home.2 = [] ∧
    ArmDriver.stop.1.ok = true ∧ ArmDriver.stop.1.message = some "Stop acknowledged" ∧
    ArmDriver.stop.2 = [] := by
  refine ⟨⟨rfl, by simp [ArmDriver.move]⟩, rfl, rfl,
    ⟨rfl, by simp [ArmDriver.home]⟩, rfl, rfl, rfl, rfl, rfl⟩

theorem C9_unsupported_ops_no_bus_witness :
    notImplementedReport (ArmDriver.move [("shoulder_pan", 9999)] 50).1 ∧
    (ArmDriver.move [("shoulder_pan", 9999)] 50).1.error
      = some "Move not implemented in monitor mode" ∧
    (ArmDriver.move [("shoulder_pan", 9999)] 50).2 = [] ∧
    notImplementedReport ArmDriver.home.1 ∧
    ArmDriver.home.1.error = some "Home not implemented in monitor mode" ∧
    ArmDriver.home.2 = [] ∧
    ArmDriver.stop.1.ok = true ∧ ArmDriver.stop.1.message = some "Stop acknowledged" ∧
    ArmDriver.stop.2 = [] :=
  C9_unsupported_ops_no_bus [("shoulder_pan", 9999)] 50

/-- Claim C1: for every accepted single-joint move request (follower
connected, bus handle present, every current position readable), the bus call
sequence is exactly `sync_read(Present_Position)`,
`sync_write(Goal_Velocity)`, `sync_write(Acceleration)`,
`sync_write(Goal_Position)`, `enable_torque`; in particular `enable_torque`
only comes after the `Goal_Position` write. -/
theorem C1_move_ordering (st : FollowerState) (cal : Calibration)
    (readPos : String → Option ℚ) (req : JointMoveRequest)
    (hc : st.connected = true) (ha : st.armPresent = true)
    (hread : ∀ n ∈ JOINT_NAMES, (readPos n).isSome = true) :
    (∃ r, (follower_joint_move st cal readPos req).1 = Except.ok r) ∧
    (follower_joint_move st cal readPos req).2.map busCallKind
      = [BusCallKind.syncRead "Present_Position",
         BusCallKind.syncWrite "Goal_Velocity",
         BusCallKind.syncWrite "Acceleration",
         BusCallKind.syncWrite "Goal_Position",
         BusCallKind.enableTorque] := by
  rw [follower_joint_move_accepted st cal readPos (fun n => (readPos n).getD 0) req
    hc ha (readPos_eq_some_getD readPos hread)]
  exact ⟨⟨_, rfl⟩, rfl⟩

theorem C1_move_ordering_witness :
    (∃ r, (follower_joint_move { connected := true, armPresent := true } none
        (fun _ => some 0) { joint := "shoulder_pan", angle := 10 }).1 = Except.ok r) ∧
    (follower_joint_move { connected := true, armPresent := true } none
        (fun _ => some 0) { joint := "shoulder_pan", angle := 10 }).2.map busCallKind
      = [BusCallKind.syncRead "Present_Position",
         BusCallKind.syncWrite "Goal_Velocity",
         BusCallKind.syncWrite "Acceleration",
         BusCallKind.syncWrite "Goal_Position",
         BusCallKind.enableTorque] :=
  C1_move_ordering { connected := true, armPresent := true } none
    (fun _ => some 0) { joint := "shoulder_pan", angle := 10 } rfl rfl
    (fun n hn => rfl)

/-- Claim C3 (counterexample): a move request whose joint name is not one of
the six joints still reaches the `Goal_Position` write, and the written map
then carries seven keys — the six joints plus the unknown name — so the map
does not contain exactly the six joint keys. -/
theorem C3_counterexample :
    (follower_joint_move { connected := true, armPresent := true } none
        (fun _ => some 0) { joint := "bogus", angle := 10 }).2.get? 3
      = some (BusCall.syncWrite "Goal_Position"
          [("shoulder_pan", 0), ("shoulder_lift", 0), ("elbow_flex", 0),
           ("wrist_flex", 0), ("wrist_roll", 0), ("gripper", 0), ("bogus", 10)]) ∧
    ¬ ([("shoulder_pan", (0 : ℚ)), ("shoulder_lift", 0), ("elbow_flex", 0),
        ("wrist_flex", 0), ("wrist_roll", 0), ("gripper", 0),
        ("bogus", 10)].map Prod.fst = JOINT_NAMES) := by
  constructor
  · rw [follower_joint_move_accepted { connected := true, armPresent := true } none
      (fun _ => some 0) (fun _ => 0) { joint := "bogus", angle := 10 } rfl rfl
      (fun n hn => rfl)]
    rfl
  · decide

/-- Claim C3 (amended): for every accepted move request whose target joint is
one of the six joints, the `Goal_Position` write carries exactly the six
joint keys, every non-target joint's value is the position just returned by
`sync_read(Present_Position)`, and the target joint's value is the clamped
requested angle; a request naming an unknown joint instead adds a seventh
key. -/
theorem C3_full_map_write (st : FollowerState) (cal : Calibration)
    (readPos : String → Option ℚ) (vals : String → ℚ) (req : JointMoveRequest)
    (hc : st.connected = true) (ha : st.armPresent = true)
    (hvals : ∀ n ∈ JOINT_NAMES, readPos n = some (vals n))
    (hj : req.joint ∈ JOINT_NAMES) :
    (follower_joint_move st cal readPos req).2.get? 3
      = some (BusCall.syncWrite "Goal_Position"
          (JOINT_NAMES.map (fun n =>
            (n, if n = req.joint
                then clampToLimits (get_joint_limits cal) req.joint req.angle
                else vals n)))) := by
  rw [follower_joint_move_accepted st cal readPos vals req hc ha hvals]
  have hd := dinsert_map_mem vals req.joint
    (clampToLimits (get_joint_limits cal) req.joint req.angle) JOINT_NAMES
    (by decide) hj
  simp only [List.get?, hd]

theorem C3_full_map_write_witness :
    (follower_joint_move { connected := true, armPresent := true } none
        (fun _ => some 7) { joint := "elbow_flex", angle := 20 }).2.get? 3
      = some (BusCall.syncWrite "Goal_Position"
          (JOINT_NAMES.map (fun n =>
            (n, if n = "elbow_flex"
                then clampToLimits (get_joint_limits none) "elbow_flex" 20
                else 7)))) :=
  C3_full_map_write { connected := true, armPresent := true } none
    (fun _ => some 7) (fun _ => 7) { joint := "elbow_flex", angle := 20 }
    rfl rfl (fun n hn => rfl) (by decide)

/-- Claim C4: for every accepted move request on a joint with calibrated
limits `(lo, hi)` with `lo ≤ hi`, the angle actually sent is `lo` when the
request is below `lo`, `hi` when above `hi`, and the request unchanged
inside the range; that angle is the target joint's entry in the
`Goal_Position` write, and the result's clamped flag is true exactly when
the sent angle differs from the request. -/
theorem C4_clamping (st : FollowerState) (cal : Calibration)
    (readPos : String → Option ℚ) (req : JointMoveRequest) (lo hi : ℚ)
    (hc : st.connected = true) (ha : st.armPresent = true)
    (hread : ∀ n ∈ JOINT_NAMES, (readPos n).isSome = true)
    (hlim : List.lookup req.joint (get_joint_limits cal) = some (lo, hi))
    (hlohi : lo ≤ hi) :
    ∃ r gm, (follower_joint_move st cal readPos req).1 = Except.ok r ∧
      (follower_joint_move st cal readPos req).2.get? 3
        = some (BusCall.syncWrite "Goal_Position" gm) ∧
      List.lookup req.joint gm = some r.angle ∧
      r.angle = (if req.angle < lo then lo
                 else if hi < req.angle then hi else req.angle) ∧
      (r.clamped = true ↔ r.angle ≠ req.angle) := by
  have hangle : clampToLimits (get_joint_limits cal) req.joint req.angle
      = (if req.angle < lo then lo else if hi < req.angle then hi else req.angle) := by
    rw [clampToLimits, hlim]
    show max lo (min hi req.angle) = _
    split_ifs with h1 h2
    · rw [min_eq_right (h1.le.trans hlohi), max_eq_left h1.le]
    · rw [min_eq_left h2.le, max_eq_right hlohi]
    · rw [min_eq_right (not_lt.mp h2), max_eq_right (not_lt.mp h1)]
  rw [follower_joint_move_accepted st cal readPos (fun n => (readPos n).getD 0) req
    hc ha (readPos_eq_some_getD readPos hread)]
  refine ⟨_, _, rfl, rfl, lookup_dinsert_self _ _ _, hangle, ?_⟩
  simp

theorem C4_clamping_witness :
    ∃ r gm,
      (follower_joint_move { connected := true, armPresent := true }
          (some [("shoulder_pan",
            { id := 1, drive_mode := 0, homing_offset := -2027,
              range_min := 943, range_max := 3337 })])
          (fun _ => some 0) { joint := "shoulder_pan", angle := 200 }).1
        = Except.ok r ∧
      (follower_joint_move { connected := true, armPresent := true }
          (some [("shoulder_pan",
            { id := 1, drive_mode := 0, homing_offset := -2027,
              range_min := 943, range_max := 3337 })])
          (fun _ => some 0) { joint := "shoulder_pan", angle := 200 }).2.get? 3
        = some (BusCall.syncWrite "Goal_Position" gm) ∧
      List.lookup "shoulder_pan" gm = some r.angle ∧
      r.angle = (if (200 : ℚ) < -(1368/13) then -(1368/13)
                 else if (1368/13 : ℚ) < 200 then 1368/13 else 200) ∧
      (r.clamped = true ↔ r.angle ≠ 200) :=
  C4_clamping { connected := true, armPresent := true }
    (some [("shoulder_pan",
      { id := 1, drive_mode := 0, homing_offset := -2027,
        range_min := 943, range_max := 3337 })])
    (fun _ => some 0) { joint := "shoulder_pan", angle := 200 } (-(1368/13)) (1368/13)
    rfl rfl (fun n hn => rfl)
    (by
      have hsp : ¬ ("shoulder_pan" : String) = "gripper" := by decide
      norm_num [get_joint_limits, halfRange, dinsert, List.lookup, hsp])
    (by norm_num)

/-- Claim C10: when the calibration file is absent or the requested joint has
no entry in the derived limits, an accepted move request is not clamped at
all: the target joint's written value equals the request exactly and the
result reports `clamped = false`. -/
theorem C10_no_limits_no_clamp (st : FollowerState) (cal : Calibration)
    (readPos : String → Option ℚ) (req : JointMoveRequest)
    (hc : st.connected = true) (ha : st.armPresent = true)
    (hread : ∀ n ∈ JOINT_NAMES, (readPos n).isSome = true)
    (hlim : List.lookup req.joint (get_joint_limits cal) = none) :
    ∃ r gm, (follower_joint_move st cal readPos req).1 = Except.ok r ∧
      (follower_joint_move st cal readPos req).2.get? 3
        = some (BusCall.syncWrite "Goal_Position" gm) ∧
      List.lookup req.joint gm = some req.angle ∧
      r.angle = req.angle ∧ r.clamped = false := by
  have hangle : clampToLimits (get_joint_limits cal) req.joint req.angle = req.angle := by
    rw [clampToLimits, hlim]
  rw [follower_joint_move_accepted st cal readPos (fun n => (readPos n).getD 0) req
    hc ha (readPos_eq_some_getD readPos hread)]
  refine ⟨_, _, rfl, rfl, ?_, hangle, ?_⟩
  · rw [hangle]
    exact lookup_dinsert_self _ _ _
  · simp [hangle]

theorem C10_no_limits_no_clamp_witness :
    ∃ r gm,
      (follower_joint_move { connected := true, armPresent := true } none
          (fun _ => some 0) { joint := "shoulder_pan", angle := 9999 }).1
        = Except.ok r ∧
      (follower_joint_move { connected := true, armPresent := true } none
          (fun _ => some 0) { joint := "shoulder_pan", angle := 9999 }).2.get? 3
        = some (BusCall.syncWrite "Goal_Position" gm) ∧
      List.lookup "shoulder_pan" gm = some 9999 ∧
      r.angle = 9999 ∧ r.clamped = false :=
  C10_no_limits_no_clamp { connected := true, armPresent := true } none
    (fun _ => some 0) { joint := "shoulder_pan", angle := 9999 }
    rfl rfl (fun n hn => rfl) rfl

/-- Claim C8 (counterexample): the limits `_get_joint_limits` derives for the
`shoulder_pan` entry `range_min = 943`, `range_max = 3337` are the exact
`(-1368/13, 1368/13)` — roughly `(-105.23, 105.23)` — and NOT the one-decimal
rounded `(-105.2, 105.2)` the claim states. -/
theorem C8_unrounded_counterexample :
    List.lookup "shoulder_pan"
        (get_joint_limits (some [("shoulder_pan", shoulder_pan_cal)]))
      = some (-(1368/13 : ℚ), (1368/13 : ℚ)) ∧
    ¬ List.lookup "shoulder_pan"
        (get_joint_limits (some [("shoulder_pan", shoulder_pan_cal)]))
      = some (-(526/5 : ℚ), (526/5 : ℚ)) := by
  have hsp : ¬ ("shoulder_pan" : String) = "gripper" := by decide
  have h1 : List.lookup "shoulder_pan"
      (get_joint_limits (some [("shoulder_pan", shoulder_pan_cal)]))
      = some (-(1368/13 : ℚ), (1368/13 : ℚ)) := by
    norm_num [get_joint_limits, halfRange, shoulder_pan_cal, dinsert, List.lookup, hsp]
  refine ⟨h1, fun hcontra => ?_⟩
  rw [h1] at hcontra
  simp only [Option.some_inj, Prod.mk.injEq] at hcontra
  norm_num at hcontra

/-- Claim C8 (amended): for every rotational calibration entry,
`_get_joint_limits` derives the exact unrounded limits `(-half, half)` with
`half = (range_max - range_min)/2 * 360/4095`, while the calibration endpoint
reports them rounded to one decimal place; the gripper maps to `(0, 100)`;
rounding gives `(-105.2, 105.2)` for `range_min = 943, range_max = 3337` and
both derivations give exactly `(-180, 180)` for `range_min = 0,
range_max = 4095`. -/
theorem C8_derived_limits (entries : List (String × CalEntry)) (name : String)
    (e : CalEntry) (hnd : (entries.map Prod.fst).Nodup) (hmem : (name, e) ∈ entries)
    (hname : name ≠ "gripper") :
    List.lookup name (get_joint_limits (some entries))
      = some (-(halfRange e), halfRange e) ∧
    List.lookup name (arm_calibration_role (some entries))
      = some { min := roundTo1 (-(halfRange e)), max := roundTo1 (halfRange e),
               unit := "deg" } ∧
    List.lookup "gripper" (get_joint_limits (some [("gripper", e)]))
      = some (0, 100) ∧
    roundTo1 (halfRange shoulder_pan_cal) = 526/5 ∧
    roundTo1 (-(halfRange shoulder_pan_cal)) = -(526/5) ∧
    halfRange wrist_roll_cal = 180 := by
  have h1 := lookup_foldl_dinsert
    (fun p : String × CalEntry =>
      if p.1 = "gripper" then ((0 : ℚ), (100 : ℚ))
      else (-(halfRange p.2), halfRange p.2))
    entries [] name e hnd hmem
  have h2 := lookup_foldl_dinsert
    (fun p : String × CalEntry =>
      if p.1 = "gripper" then ({ min := 0, max := 100, unit := "%" } : CalLimit)
      else { min := roundTo1 (-(halfRange p.2)),
             max := roundTo1 (halfRange p.2), unit := "deg" })
    entries [] name e hnd hmem
  simp only [hname, if_false] at h1 h2
  refine ⟨h1, h2, rfl, ?_, ?_, ?_⟩
  · norm_num [roundTo1, halfRange, shoulder_pan_cal, round_eq]
  · norm_num [roundTo1, halfRange, shoulder_pan_cal, round_eq]
  · norm_num [halfRange, wrist_roll_cal]

theorem C8_derived_limits_witness :
    List.lookup "shoulder_pan"
        (get_joint_limits (some [("shoulder_pan", shoulder_pan_cal)]))
      = some (-(halfRange shoulder_pan_cal), halfRange shoulder_pan_cal) ∧
    List.lookup "shoulder_pan"
        (arm_calibration_role (some [("shoulder_pan", shoulder_pan_cal)]))
      = some { min := roundTo1 (-(halfRange shoulder_pan_cal)),
               max := roundTo1 (halfRange shoulder_pan_cal), unit := "deg" } ∧
    List.lookup "gripper"
        (get_joint_limits (some [("gripper", shoulder_pan_cal)]))
      = some (0, 100) ∧
    roundTo1 (halfRange shoulder_pan_cal) = 526/5 ∧
    roundTo1 (-(halfRange shoulder_pan_cal)) = -(526/5) ∧
    halfRange wrist_roll_cal = 180 :=
  C8_derived_limits [("shoulder_pan", shoulder_pan_cal)] "shoulder_pan"
    shoulder_pan_cal (by simp) (by simp) (by decide)

/-- Claim C5 (counterexample): the invariant does not hold at every point
observable via `get_status`: the read-failure handler clears the connected
flag outside the lock before the locked snapshot reset, so the monitor can
reach a state — here, right after `self._connected = False`, before
`self._disconnect()` returns — in which `get_status` reports
`connected = false` together with the previous non-empty snapshot. -/
theorem C5_stale_snapshot_counterexample :
    Reachable readFailMidState ∧
    (get_status readFailMidState "/dev/ttyACM1").connected = false ∧
    ¬ (get_status readFailMidState "/dev/ttyACM1").joints = empty_joints := by
  refine ⟨?_, rfl, ?_⟩
  · have h1 : Reachable cexStarted :=
      Reachable.step _ _ _ Reachable.init (Step.start _ rfl)
    have h2 : Reachable cexOpened :=
      Reachable.step _ _ _ h1 (Step.connectOk _ rfl rfl rfl rfl)
    have h3 : Reachable cexConnected :=
      Reachable.step _ _ _ h2 (Step.readOk _ (fun _ => some 10) rfl rfl rfl rfl rfl)
    have h4 : Reachable { cexConnected with phase := Phase.readFailedPending } :=
      Reachable.step _ _ _ h3 (Step.readFailNone _ rfl rfl rfl rfl)
    exact Reachable.step _ _ _ h4 (Step.readFailFlag _ rfl)
  · intro h
    have h5 : read_joints (fun _ => some 10) = empty_joints := h
    simp [read_joints, empty_joints, JOINT_NAMES] at h5

/-- Claim C5 (amended): in every reachable monitor state in which the loop
thread is not midway through the read-failure handler, a false connected
flag observed through `get_status` implies the returned joints map is the
all-`None` map; a read failure clears the connected flag, issues
`disconnect(disable_torque = false)` — every disconnect the monitor ever
issues carries `disable_torque = false` — and resets the snapshot to
all-`None` by the time its handler completes, but between the unlocked flag
write and the locked reset a concurrent `get_status` can observe
`connected = false` with the stale snapshot. -/
theorem C5_disconnected_snapshot (port : String) (s : MonitorState)
    (hs : Reachable s) (hidle : s.phase = Phase.idle)
    (hconn : (get_status s port).connected = false) :
    (get_status s port).joints = empty_joints ∧
    ∀ (u v : MonitorState) (calls : List BusCall), Step u calls v →
      ∀ b : Bool, BusCall.disconnect b ∈ calls → b = false := by
  constructor
  · have key : ∀ t : MonitorState, Reachable t → t.phase = Phase.idle →
        t.connected = false → t.joints = empty_joints := by
      intro t ht
      induction ht with
      | init => intro _ _; rfl
      | step u w calls hu hstep ih =>
        cases hstep with
        | start h => exact fun hph hc => ih hph hc
        | startNoop h => exact fun hph hc => ih hph hc
        | tickPaused hr hp hph0 => exact fun hph hc => ih hph hc
        | connectOk hr hp hc0 hph0 => exact fun _ hc => Bool.noConfusion hc
        | connectFail hr hp hc0 hph0 => exact fun _ _ => ih hph0 hc0
        | readOk raw hr hp hc0 ha hph0 =>
          exact fun _ hc => Bool.noConfusion (hc0.symm.trans hc)
        | readFailNone hr hp hc0 hph0 => exact fun hph _ => Phase.noConfusion hph
        | readFailFlag hph0 => exact fun hph _ => Phase.noConfusion hph
        | readFailDisconnect hph0 => exact fun hph _ => Phase.noConfusion hph
        | readFailReset hph0 => exact fun _ _ => rfl
        | pause => exact fun _ _ => rfl
        | resume => exact fun hph hc => ih hph hc
        | stop => exact fun hph hc => ih hph hc
    exact key s hs hidle hconn
  · intro u v calls hstep b hb
    cases hstep with
    | start h => cases hb
    | startNoop h => cases hb
    | tickPaused hr hp hph0 => cases hb
    | connectOk hr hp hc0 hph0 => simp at hb
    | connectFail hr hp hc0 hph0 => simp at hb
    | readOk raw hr hp hc0 ha hph0 => simp at hb
    | readFailNone hr hp hc0 hph0 => split at hb <;> simp_all
    | readFailFlag hph0 => cases hb
    | readFailDisconnect hph0 =>
      unfold disconnectCalls at hb
      split at hb <;> simp_all
    | readFailReset hph0 => cases hb
    | pause =>
      unfold disconnectCalls at hb
      split at hb <;> simp_all
    | resume => cases hb
    | stop =>
      unfold disconnectCalls at hb
      split at hb <;> simp_all

theorem C5_disconnected_snapshot_witness :
    (get_status MonitorState.initial "/dev/ttyACM1").joints = empty_joints ∧
    ∀ (u v : MonitorState) (calls : List BusCall), Step u calls v →
      ∀ b : Bool, BusCall.disconnect b ∈ calls → b = false :=
  C5_disconnected_snapshot "/dev/ttyACM1" MonitorState.initial Reachable.init rfl rfl

end LumoDashboard
